import Mathlib

/-!
Hint handlers of the SDM660 power HAL (`power-660.c`).

A shallow embedding of `src/power-660.c`.  The file-scope and function-scope
`static` variables become the fields of `State`; every handler is a function
from the state before the call to the state after it, together with the list
of outbound calls it made (`Event`), in program order.  What the handlers read
from the platform during one call (governor, SoC id node, clock, the handle
the performance service hands back) is the `World` of that call.  Macros,
constants and helpers that live in headers outside this file are the fields of
`Headers`, and every theorem holds for all of them.

C `int` values are modelled as `Int`.  The only arithmetic the file performs on
them is `camera_hint_ref_count++` and `camera_hint_ref_count--`; signed overflow
is undefined in C and would need 2^31 unbalanced calls, so the counter is an
unbounded `Int` here.  The mutex around the counter is not modelled: calls are
taken one after the other.
-/

namespace Power660

/-- Return codes `HINT_HANDLED` and `HINT_NONE` of `power-common.h`.  The header
is not part of the sources at hand; the two codes are kept symbolic and
distinct. -/
inductive HintStatus where
  | HINT_HANDLED
  | HINT_NONE
  deriving DecidableEq, Repr

/-- The hint kinds `power_hint_override` switches on; every other value of the
enum reaches the `default` label. -/
inductive power_hint_t where
  | POWER_HINT_VSYNC
  | POWER_HINT_INTERACTION
  | POWER_HINT_LAUNCH
  | POWER_HINT_VIDEO_ENCODE
  | other (code : Int)
  deriving DecidableEq, Repr

/-- The two fields of `struct timespec`. -/
structure timespec where
  tv_sec : Int
  tv_nsec : Int
  deriving DecidableEq, Repr

/-- The fields of `struct video_encode_metadata_t` this file reads. -/
structure video_encode_metadata_t where
  state : Int
  hint_id : Int
  deriving DecidableEq, Repr

/-- What a non-null `void *data` points at, under the two casts the handlers
apply to it: `*((int*)data)` and `(char *)metadata`. -/
structure Pointee where
  as_int : Int
  as_str : String
  deriving DecidableEq, Repr

/-- Macros, constants and helper functions used by `power-660.c` and declared in
headers outside it (`utils.h`, `hint-data.h`, `performance.h`,
`metadata-defs.h`).  `parse_video_encode_metadata` receives the initialised
record and yields `none` for the return value `-1`, otherwise the record as the
parser left it. -/
structure Headers where
  CHECK_HANDLE : Int → Bool
  calc_timespan_us : timespec → timespec → Int
  is_interactive_governor : String → Bool
  parse_video_encode_metadata :
    String → video_encode_metadata_t → Option video_encode_metadata_t
  DISPLAY_STATE_HINT_ID : Int
  DEFAULT_VIDEO_ENCODE_HINT_ID : Int
  VENDOR_HINT_SCROLL_BOOST : Int
  SCROLL_VERTICAL : Int
  VENDOR_HINT_FIRST_LAUNCH_BOOST : Int
  LAUNCH_BOOST_V1 : Int

/-- Outcome of `open` and `read` on `/sys/devices/soc0/soc_id`; `contents` carries
`atoi(buf)`. -/
inductive soc_id_node where
  | open_failed
  | read_failed
  | contents (atoi_buf : Int)
  deriving DecidableEq, Repr

/-- What one call observes of the platform: the return code of
`get_scaling_governor` and the buffer as that call leaves it (on failure the
buffer is whatever the stack held), the SoC id node, the monotonic clock, and
the handle `perf_hint_enable_with_type` returns if it is called. -/
structure World where
  governor_rc : Int
  governor : String
  soc : soc_id_node
  now : timespec
  perf_handle : Int
  deriving DecidableEq, Repr

/-- Outbound calls, in the order the code makes them.  `soc_id_open` is the
`open` of the SoC id node inside `is_target_SDM630`. -/
inductive Event where
  | perf_hint_enable_with_type (hint_id : Int) (duration : Int) (type : Int)
  | release_request (handle : Int)
  | perform_hint_action (hint_id : Int) (resource_values : List Int) (num_resources : Nat)
  | undo_hint_action (hint_id : Int)
  | soc_id_open
  deriving DecidableEq, Repr

/-- The `static` variables of the file and of its functions.
`cam_preview_hint_sent` is declared but never used and is left out. -/
structure State where
  saved_interactive_mode : Int
  display_hint_sent : Int
  video_encode_hint_sent : Int
  camera_hint_ref_count : Int
  s_previous_boost_timespec : timespec
  s_previous_duration : Int
  launch_handle : Int
  launch_mode : Int
  deriving DecidableEq, Repr

/-- The state at load time: the initialisers of the source, zero where there is
none. -/
def State.init : State :=
  { saved_interactive_mode := -1
    display_hint_sent := 0
    video_encode_hint_sent := 0
    camera_hint_ref_count := 0
    s_previous_boost_timespec := { tv_sec := 0, tv_nsec := 0 }
    s_previous_duration := 0
    launch_handle := -1
    launch_mode := 0 }

/-- What an `int`-returning entry point leaves behind. -/
structure Result where
  state : State
  ret : HintStatus
  events : List Event
  deriving DecidableEq, Repr

def kMinInteractiveDuration : Int := 400
def kMaxInteractiveDuration : Int := 5000
def kMaxLaunchDuration : Int := 5000

/-- The macro `MIN_VAL(X,Y) ((X>Y)?(Y):(X))`. -/
def MIN_VAL (X Y : Nat) : Nat := if X > Y then Y else X

/-- Number of `int` slots of `int resource_values[20]`. -/
def resource_values_slots : Nat := 20

/-- Size of `int` in bytes on the targets of this HAL. -/
def sizeof_int : Nat := 4

/-- The part of `resource_values` written by
`memcpy(resource_values, res, MIN_VAL(sizeof(resource_values), sizeof(res)))`. -/
def memcpy_resource_values (res : List Int) : List Int :=
  res.take (MIN_VAL (resource_values_slots * sizeof_int) (res.length * sizeof_int) / sizeof_int)

/-- The value `is_target_SDM630` returns. -/
def is_target_SDM630 (soc : soc_id_node) : Bool :=
  match soc with
  | .open_failed => false
  | .read_failed => false
  | .contents soc_id => soc_id == 318 || soc_id == 327 || soc_id == 385

def process_interaction_hint (h : Headers) (w : World) (s : State)
    (data : Option Pointee) : State × List Event :=
  let duration := kMinInteractiveDuration
  let duration :=
    match data with
    | some p =>
      let input_duration := p.as_int
      if input_duration > duration then
        (if input_duration > kMaxInteractiveDuration then kMaxInteractiveDuration
         else input_duration)
      else duration
    | none => duration
  let cur_boost_timespec := w.now
  let elapsed_time := h.calc_timespan_us s.s_previous_boost_timespec cur_boost_timespec
  if elapsed_time < 250000 ∧ duration ≤ 750 then
    (s, [])
  else
    ({ s with s_previous_boost_timespec := cur_boost_timespec
              s_previous_duration := duration },
     [Event.perf_hint_enable_with_type h.VENDOR_HINT_SCROLL_BOOST duration h.SCROLL_VERTICAL])

def process_activity_launch_hint (h : Headers) (w : World) (s : State)
    (data : Option Pointee) : Result :=
  match data with
  | none =>
    if h.CHECK_HANDLE s.launch_handle then
      { state := { s with launch_handle := -1, launch_mode := 0 }
        ret := HintStatus.HINT_HANDLED
        events := [Event.release_request s.launch_handle] }
    else
      { state := { s with launch_mode := 0 }
        ret := HintStatus.HINT_HANDLED
        events := [] }
  | some _ =>
    if s.launch_mode = 0 then
      let launch_handle := w.perf_handle
      let ev := [Event.perf_hint_enable_with_type h.VENDOR_HINT_FIRST_LAUNCH_BOOST
                  kMaxLaunchDuration h.LAUNCH_BOOST_V1]
      if ¬ (h.CHECK_HANDLE launch_handle = true) then
        { state := { s with launch_handle := launch_handle }
          ret := HintStatus.HINT_NONE
          events := ev }
      else
        { state := { s with launch_handle := launch_handle, launch_mode := 1 }
          ret := HintStatus.HINT_HANDLED
          events := ev }
    else
      { state := s, ret := HintStatus.HINT_HANDLED, events := [] }

/-- Table `res` of the display-off branch for SDM630/SDM455. -/
def display_res_SDM630 : List Int :=
  [0x41414000, 0x459, 0x41410000, 0x5F, 0x41400000, 0x4, 0x41820000, 0xA]

/-- Table `res` of the display-off branch for every other target. -/
def display_res_other : List Int :=
  [0x41414100, 0x386, 0x41410100, 0x5F, 0x41400100, 0x4, 0x41820000, 0xA,
   0x40C54000, 0x1F4]

/-- Table `res` of the video-encode branch for SDM630/SDM455. -/
def video_encode_res_SDM630 : List Int :=
  [0x41414000, 0x459, 0x41410000, 0x5F, 0x41400000, 0x4, 0x41420000, 0x5F,
   0x40C2C000, 0x5, 0x41820000, 0xA]

/-- Table `res` of the video-encode branch for every other target. -/
def video_encode_res_other : List Int :=
  [0x41414100, 0x386, 0x41410100, 0x5F, 0x41400100, 0x4, 0x41820000, 0xA]

def process_video_encode_hint (h : Headers) (w : World) (s : State)
    (metadata : Option Pointee) : State × List Event :=
  -- a failing `get_scaling_governor` is logged only: its `return` is commented out
  let governor := w.governor
  let video_encode_metadata : video_encode_metadata_t :=
    { state := -1, hint_id := h.DEFAULT_VIDEO_ENCODE_HINT_ID }
  match metadata with
  | none => (s, [])
  | some p =>
    match h.parse_video_encode_metadata p.as_str video_encode_metadata with
    | none => (s, [])
    | some video_encode_metadata =>
      if video_encode_metadata.state = 1 then
        if h.is_interactive_governor governor then
          let res :=
            if is_target_SDM630 w.soc then video_encode_res_SDM630 else video_encode_res_other
          let resource_values := memcpy_resource_values res
          let num_resources := res.length
          let s1 := { s with camera_hint_ref_count := s.camera_hint_ref_count + 1 }
          if s1.camera_hint_ref_count = 1 then
            if s1.video_encode_hint_sent = 0 then
              ({ s1 with video_encode_hint_sent := 1 },
               [Event.soc_id_open,
                Event.perform_hint_action video_encode_metadata.hint_id
                  resource_values num_resources])
            else (s1, [Event.soc_id_open])
          else (s1, [Event.soc_id_open])
        else (s, [])
      else if video_encode_metadata.state = 0 then
        if h.is_interactive_governor governor then
          let s1 := { s with camera_hint_ref_count := s.camera_hint_ref_count - 1 }
          if s1.camera_hint_ref_count = 0 then
            ({ s1 with video_encode_hint_sent := 0 },
             [Event.undo_hint_action video_encode_metadata.hint_id])
          else (s1, [])
        else (s, [])
      else (s, [])

def power_hint_override (h : Headers) (w : World) (s : State)
    (hint : power_hint_t) (data : Option Pointee) : Result :=
  let ret_val := HintStatus.HINT_NONE
  -- the switch: state, `ret_val`, calls made, and the value of a `return` inside it
  let sw : State × HintStatus × List Event × Option HintStatus :=
    match hint with
    | .POWER_HINT_INTERACTION =>
      let r := process_interaction_hint h w s data
      (r.1, HintStatus.HINT_HANDLED, r.2, none)
    | .POWER_HINT_LAUNCH =>
      let r := process_activity_launch_hint h w s data
      (r.state, r.ret, r.events, none)
    | .POWER_HINT_VSYNC => (s, ret_val, [], none)
    | .POWER_HINT_VIDEO_ENCODE =>
      let r := process_video_encode_hint h w s data
      (r.1, ret_val, r.2, some HintStatus.HINT_HANDLED)
    | .other _ => (s, ret_val, [], none)
  match sw.2.2.2 with
  | some v => { state := sw.1, ret := v, events := sw.2.2.1 }
  -- the last statement is `return HINT_NONE;`, `ret_val` is not read
  | none => { state := sw.1, ret := HintStatus.HINT_NONE, events := sw.2.2.1 }

/-- The argument `on` is written `on_`, the former being reserved in Lean. -/
def set_interactive_override (h : Headers) (w : World) (s : State) (on_ : Int) : Result :=
  if w.governor_rc = -1 then
    { state := s, ret := HintStatus.HINT_HANDLED, events := [] }
  else
    let governor := w.governor
    let r : State × List Event :=
      if on_ = 0 then
        if h.is_interactive_governor governor then
          let res := if is_target_SDM630 w.soc then display_res_SDM630 else display_res_other
          let resource_values := memcpy_resource_values res
          let num_resources := res.length
          if s.display_hint_sent = 0 then
            ({ s with display_hint_sent := 1 },
             [Event.soc_id_open,
              Event.perform_hint_action h.DISPLAY_STATE_HINT_ID resource_values num_resources])
          else (s, [Event.soc_id_open])
        else (s, [])
      else
        if h.is_interactive_governor governor then
          ({ s with display_hint_sent := 0 }, [Event.undo_hint_action h.DISPLAY_STATE_HINT_ID])
        else (s, [])
    { state := { r.1 with saved_interactive_mode := if on_ ≠ 0 then 1 else 0 }
      ret := HintStatus.HINT_HANDLED
      events := r.2 }

/-! ## Runs of calls and counting of outbound calls -/

/-- Feeds the inputs of consecutive calls to a handler, threading the state;
yields the final state and, per call, the outbound calls it made. -/
def run {α : Type} (step : State → α → State × List Event) (s : State) :
    List α → State × List (List Event)
  | [] => (s, [])
  | a :: rest =>
    let r := step s a
    let rs := run step r.1 rest
    (rs.1, r.2 :: rs.2)

/-- One `set_interactive_override(on = 0)` call as a step of `run`. -/
def display_off_step (h : Headers) (s : State) (w : World) : State × List Event :=
  ((set_interactive_override h w s 0).state, (set_interactive_override h w s 0).events)

/-- One `process_video_encode_hint` call as a step of `run`. -/
def video_encode_step (h : Headers) (s : State) (c : World × Pointee) : State × List Event :=
  process_video_encode_hint h c.1 s (some c.2)

def Event.is_perform_hint_action : Event → Bool
  | .perform_hint_action _ _ _ => true
  | _ => false

def Event.is_undo_hint_action : Event → Bool
  | .undo_hint_action _ => true
  | _ => false

/-- Number of `perform_hint_action` calls among the outbound calls. -/
def count_perform (evs : List Event) : Nat := (evs.filter Event.is_perform_hint_action).length

/-- Number of `undo_hint_action` calls among the outbound calls. -/
def count_undo (evs : List Event) : Nat := (evs.filter Event.is_undo_hint_action).length

/-- The metadata record as `process_video_encode_hint` initialises it before
parsing. -/
def initial_metadata (h : Headers) : video_encode_metadata_t :=
  { state := -1, hint_id := h.DEFAULT_VIDEO_ENCODE_HINT_ID }

/-- The call reads the governor successfully and it is of the interactive
family. -/
def World.interactive (h : Headers) (w : World) : Prop :=
  w.governor_rc ≠ -1 ∧ h.is_interactive_governor w.governor = true

/-- The metadata blob parses successfully and carries the given `state`. -/
def parses_with_state (h : Headers) (p : Pointee) (st : Int) : Prop :=
  (h.parse_video_encode_metadata p.as_str (initial_metadata h)).map
    video_encode_metadata_t.state = some st

instance (h : Headers) (w : World) : Decidable (w.interactive h) := by
  unfold World.interactive
  infer_instance

instance (h : Headers) (p : Pointee) (st : Int) : Decidable (parses_with_state h p st) := by
  unfold parses_with_state
  infer_instance

/-! ## The spec's wording of the interaction duration -/

/-- The spec's `clamp(d, lo, hi) = max(lo, min(d, hi))`. -/
def clamp (d lo hi : Int) : Int := max lo (min d hi)

/-! ## Elapsed time -/

/-- Modelled from the spec: `calc_timespan_us` is defined in `utils.c`, which is
not among the sources at hand.  The spec has the debounce compare the time
elapsed between the previous boost and the current clock reading with 250 ms;
the function is that elapsed time in microseconds, its integer division
truncating as in C.  Its second argument is written `end_`. -/
def calc_timespan_us (start end_ : timespec) : Int :=
  (end_.tv_sec - start.tv_sec) * 1000000 + Int.tdiv (end_.tv_nsec - start.tv_nsec) 1000

/-! ## Concrete header values and inputs, for evaluating the handlers -/

/-- A concrete choice for the header items: handles are valid when positive, the
time span is in microseconds, the governor is compared with `interactive`, and
the metadata parser knows two blobs. -/
def Headers.sample : Headers :=
  { CHECK_HANDLE := fun x => decide (x > 0)
    calc_timespan_us := Power660.calc_timespan_us
    is_interactive_governor := fun g => g == "interactive"
    parse_video_encode_metadata := fun str m =>
      if str == "state=1" then some { m with state := 1 }
      else if str == "state=0" then some { m with state := 0 }
      else none
    DISPLAY_STATE_HINT_ID := 0x0C00
    DEFAULT_VIDEO_ENCODE_HINT_ID := 0x0A00
    VENDOR_HINT_SCROLL_BOOST := 0x1080
    SCROLL_VERTICAL := 1
    VENDOR_HINT_FIRST_LAUNCH_BOOST := 0x1081
    LAUNCH_BOOST_V1 := 1 }

/-- A call at `sec` seconds after boot on an SDM660 (SoC id 317) under the
`interactive` governor, where the performance service would hand out `handle`. -/
def World.sample (sec : Int) (handle : Int) : World :=
  { governor_rc := 0
    governor := "interactive"
    soc := soc_id_node.contents 317
    now := { tv_sec := sec, tv_nsec := 0 }
    perf_handle := handle }

/-- As `World.sample`, under the `schedutil` governor. -/
def World.sample_schedutil : World :=
  { World.sample 10 5 with governor := "schedutil" }

/-- A payload holding the duration `d`. -/
def Pointee.of_int (d : Int) : Pointee := { as_int := d, as_str := "" }

/-- A payload holding the metadata string `str`. -/
def Pointee.of_str (str : String) : Pointee := { as_int := 0, as_str := str }

/-- A call at `ms` milliseconds after boot, otherwise as `World.sample`. -/
def World.sample_ms (ms : Int) : World :=
  { World.sample 0 0 with now := { tv_sec := ms / 1000, tv_nsec := (ms % 1000) * 1000000 } }

/-- As `World.sample`, with `get_scaling_governor` failing and the `governor`
buffer holding what an earlier call left on the stack. -/
def World.sample_unreadable : World :=
  { World.sample 10 0 with governor_rc := -1 }

/-- As `Headers.sample`, with a metadata parser that accepts every blob and
leaves the record as it was initialised (`state = -1`). -/
def Headers.sample_lenient : Headers :=
  { Headers.sample with parse_video_encode_metadata := fun _ m => some m }

/-- The scroll-boost request for the duration `d`. -/
def scroll_boost (h : Headers) (d : Int) : Event :=
  Event.perf_hint_enable_with_type h.VENDOR_HINT_SCROLL_BOOST d h.SCROLL_VERTICAL

/-- The duration an interaction call requests is at most `ms`; a null payload
requests none. -/
def requests_at_most (data : Option Pointee) (ms : Int) : Prop :=
  match data with
  | none => True
  | some p => p.as_int ≤ ms

instance (data : Option Pointee) (ms : Int) : Decidable (requests_at_most data ms) :=
  match data with
  | none => isTrue trivial
  | some p => inferInstanceAs (Decidable (p.as_int ≤ ms))

/-! ## Sequences of calls to the two tuning handlers -/

/-- One `process_interaction_hint` call as a step of `run`. -/
def interaction_step (h : Headers) (s : State) (c : World × Option Pointee) :
    State × List Event :=
  process_interaction_hint h c.1 s c.2

/-- The clock reading of the last call of a run that issued a request, given the
calls and what each of them issued; `t0` if none of them did. -/
def last_boost_now (t0 : timespec) :
    List (World × Option Pointee) → List (List Event) → timespec
  | c :: cs, e :: es => last_boost_now (if e = [] then t0 else c.1.now) cs es
  | _, _ => t0

/-- One `process_activity_launch_hint` call as a step of `run`; a null payload is
a launch end, any other a launch start. -/
def launch_step (h : Headers) (s : State) (c : World × Option Pointee) :
    State × List Event :=
  ((process_activity_launch_hint h c.1 s c.2).state,
   (process_activity_launch_hint h c.1 s c.2).events)

/-- A call to one of the two handlers that own a hint-sent flag. -/
inductive TuningCall where
  | set_interactive (w : World) (on_ : Int)
  | video_encode (w : World) (metadata : Option Pointee)
  deriving DecidableEq, Repr

/-- The state together with the outbound calls each of the two handlers has made
so far, oldest first. -/
structure Traced where
  state : State
  display_calls : List Event
  video_encode_calls : List Event
  deriving DecidableEq, Repr

def Traced.init : Traced :=
  { state := State.init, display_calls := [], video_encode_calls := [] }

def Traced.step (h : Headers) (t : Traced) (c : TuningCall) : Traced :=
  match c with
  | .set_interactive w on_ =>
    { t with state := (set_interactive_override h w t.state on_).state
             display_calls := t.display_calls ++ (set_interactive_override h w t.state on_).events }
  | .video_encode w metadata =>
    { t with state := (process_video_encode_hint h w t.state metadata).1
             video_encode_calls :=
               t.video_encode_calls ++ (process_video_encode_hint h w t.state metadata).2 }

def Traced.run (h : Headers) (t : Traced) (cs : List TuningCall) : Traced :=
  cs.foldl (Traced.step h) t

/-- Whether an undo is owed after one more outbound call, given whether it was
owed before: an apply makes it owed, an undo settles it. -/
def undo_owed_after (owed : Bool) (e : Event) : Bool :=
  match e with
  | .perform_hint_action _ _ _ => true
  | .undo_hint_action _ => false
  | _ => owed

/-- Whether the most recent call to the performance service in `evs` is a
`perform_hint_action`, that is, an apply with no undo after it. -/
def undo_owed (evs : List Event) : Bool := evs.foldl undo_owed_after false

/-- Each hint-sent flag is 1 exactly when the most recent performance-service
call of its handler is an apply. -/
def Traced.flags_reflect_calls (t : Traced) : Prop :=
  (t.state.display_hint_sent = 1 ↔ undo_owed t.display_calls = true)
  ∧ (t.state.video_encode_hint_sent = 1 ↔ undo_owed t.video_encode_calls = true)

/-- The launch handler is in launching mode exactly when it holds a valid
handle, and `launch_mode` is 0 or 1. -/
def launch_consistent (h : Headers) (s : State) : Prop :=
  (s.launch_mode = 1 ↔ h.CHECK_HANDLE s.launch_handle = true)
  ∧ (s.launch_mode = 0 ∨ s.launch_mode = 1)

/-- The metadata a video-encode hint drops: a null pointer, a blob the parser
rejects, or a parsed record whose `state` is neither 0 nor 1. -/
def metadata_dropped (h : Headers) (metadata : Option Pointee) : Prop :=
  match metadata with
  | none => True
  | some p =>
    match h.parse_video_encode_metadata p.as_str (initial_metadata h) with
    | none => True
    | some m => m.state ≠ 0 ∧ m.state ≠ 1

instance (h : Headers) (metadata : Option Pointee) :
    Decidable (metadata_dropped h metadata) :=
  match metadata with
  | none => isTrue trivial
  | some p =>
    show Decidable (match h.parse_video_encode_metadata p.as_str (initial_metadata h) with
      | none => True
      | some m => m.state ≠ 0 ∧ m.state ≠ 1) from
    match h.parse_video_encode_metadata p.as_str (initial_metadata h) with
    | none => isTrue trivial
    | some _ => inferInstance

/-- A video-encode call that reaches the reference counter: interactive governor
and a blob that parses with state 1 (start) or 0 (stop). -/
def counted_call (h : Headers) (c : World × Pointee) : Prop :=
  c.1.interactive h ∧ (parses_with_state h c.2 1 ∨ parses_with_state h c.2 0)

instance (h : Headers) (c : World × Pointee) : Decidable (counted_call h c) := by
  unfold counted_call
  infer_instance

/-- Number of starts among the calls. -/
def count_starts (h : Headers) (cs : List (World × Pointee)) : Nat :=
  (cs.filter (fun c => decide (parses_with_state h c.2 1))).length

/-- Number of stops among the calls. -/
def count_stops (h : Headers) (cs : List (World × Pointee)) : Nat :=
  (cs.filter (fun c => decide (parses_with_state h c.2 0))).length

/-! ## Interaction hint -/

/-- C2. Whenever `process_interaction_hint` issues the scroll-boost request, the
duration it passes is `clamp(d, 400, 5000)` for a payload holding `d` (any
integer), and 400 for a null payload; the request is issued unless the call is
debounced. -/
theorem interaction_duration_is_clamp (h : Headers) (w : World) (s : State) (p : Pointee) :
    (process_interaction_hint h w s (some p)).2 =
        (if h.calc_timespan_us s.s_previous_boost_timespec w.now < 250000
              ∧ clamp p.as_int 400 5000 ≤ 750 then []
         else [Event.perf_hint_enable_with_type h.VENDOR_HINT_SCROLL_BOOST
                 (clamp p.as_int 400 5000) h.SCROLL_VERTICAL])
    ∧ (process_interaction_hint h w s none).2 =
        (if h.calc_timespan_us s.s_previous_boost_timespec w.now < 250000 then []
         else [Event.perf_hint_enable_with_type h.VENDOR_HINT_SCROLL_BOOST
                 400 h.SCROLL_VERTICAL]) := by
  have hc : (if p.as_int > 400 then (if p.as_int > 5000 then 5000 else p.as_int) else 400)
      = clamp p.as_int 400 5000 := by
    unfold clamp
    split_ifs with h1 h2 <;> omega
  constructor
  · simp only [process_interaction_hint, kMinInteractiveDuration, kMaxInteractiveDuration, hc]
    split_ifs <;> rfl
  · simp only [process_interaction_hint, kMinInteractiveDuration]
    by_cases he : h.calc_timespan_us s.s_previous_boost_timespec w.now < 250000
    · simp [he]
    · simp [he]

/-- The duration `process_interaction_hint` settles on before the debounce test:
the spec's clamp of the requested duration, 400 without a payload. -/
def applied_duration (data : Option Pointee) : Int :=
  match data with
  | none => 400
  | some p => clamp p.as_int 400 5000

/-- C3. A call to `process_interaction_hint` issues no request if and only if
less than 250000 us elapsed since the stored previous-boost timestamp and the
clamped duration is at most 750; otherwise it issues exactly one request; and
the stored timestamp becomes the current time exactly when a request is issued,
staying as it was otherwise. -/
theorem interaction_debounce (h : Headers) (w : World) (s : State) (data : Option Pointee) :
    ((process_interaction_hint h w s data).2 = [] ↔
        (h.calc_timespan_us s.s_previous_boost_timespec w.now < 250000
          ∧ applied_duration data ≤ 750))
    ∧ (process_interaction_hint h w s data).2.length =
        (if h.calc_timespan_us s.s_previous_boost_timespec w.now < 250000
              ∧ applied_duration data ≤ 750 then 0 else 1)
    ∧ (process_interaction_hint h w s data).1.s_previous_boost_timespec =
        (if (process_interaction_hint h w s data).2 = [] then s.s_previous_boost_timespec
         else w.now) := by
  have hc : ∀ d : Int, (if d > 400 then (if d > 5000 then 5000 else d) else 400)
      = clamp d 400 5000 := by
    intro d
    unfold clamp
    split_ifs with h1 h2 <;> omega
  cases data with
  | none =>
    simp only [process_interaction_hint, kMinInteractiveDuration, applied_duration]
    by_cases he : h.calc_timespan_us s.s_previous_boost_timespec w.now < 250000
    · simp [he]
    · simp [he]
  | some p =>
    simp only [process_interaction_hint, kMinInteractiveDuration, kMaxInteractiveDuration,
      applied_duration, hc]
    by_cases he : h.calc_timespan_us s.s_previous_boost_timespec w.now < 250000
        ∧ clamp p.as_int 400 5000 ≤ 750
    · simp [he]
    · simp [he]

/-! ## Dispatcher -/

/-- C4. On `POWER_HINT_INTERACTION` the dispatcher sets `ret_val = HINT_HANDLED`
but leaves through `return HINT_NONE`: for every payload and every prior state
the value returned is `HINT_NONE`, not `HINT_HANDLED`. -/
theorem power_hint_override_interaction_ret (h : Headers) (w : World) (s : State)
    (data : Option Pointee) :
    (power_hint_override h w s power_hint_t.POWER_HINT_INTERACTION data).ret
        = HintStatus.HINT_NONE
    ∧ (power_hint_override h w s power_hint_t.POWER_HINT_INTERACTION data).ret
        ≠ HintStatus.HINT_HANDLED := by
  simp [power_hint_override]

/-- C5. On `POWER_HINT_LAUNCH` the dispatcher stores the handler's status in
`ret_val` and then returns `HINT_NONE` whatever it was; on a first launch start
that acquires the valid handle 7 the handler computes `HINT_HANDLED` while the
dispatcher returns `HINT_NONE`. -/
theorem power_hint_override_launch_ret :
    (∀ (h : Headers) (w : World) (s : State) (data : Option Pointee),
        (power_hint_override h w s power_hint_t.POWER_HINT_LAUNCH data).ret
          = HintStatus.HINT_NONE)
    ∧ (process_activity_launch_hint Headers.sample (World.sample 10 7) State.init
          (some (Pointee.of_int 0))).ret = HintStatus.HINT_HANDLED
    ∧ (power_hint_override Headers.sample (World.sample 10 7) State.init
          power_hint_t.POWER_HINT_LAUNCH (some (Pointee.of_int 0))).ret
        = HintStatus.HINT_NONE := by
  refine ⟨?_, by decide, by decide⟩
  intro h w s data
  simp [power_hint_override]

/-! ## Launch hint -/

/-- The acquisition `process_activity_launch_hint` issues on a launch start. -/
def launch_acquire (h : Headers) : Event :=
  Event.perf_hint_enable_with_type h.VENDOR_HINT_FIRST_LAUNCH_BOOST kMaxLaunchDuration
    h.LAUNCH_BOOST_V1

/-- C6. From an idle state (`launch_mode = 0`), two consecutive launch-start
calls of which the first acquires a valid handle issue exactly one acquisition
in total; the second call issues nothing, leaves the whole state (so
`launch_handle` and `launch_mode`) as the first call left it, and returns
`HINT_HANDLED`. -/
theorem launch_start_idempotent (h : Headers) (w1 w2 : World) (s : State) (p1 p2 : Pointee)
    (hidle : s.launch_mode = 0) (hvalid : h.CHECK_HANDLE w1.perf_handle = true) :
    (process_activity_launch_hint h w1 s (some p1)).events
        ++ (process_activity_launch_hint h w2
              (process_activity_launch_hint h w1 s (some p1)).state (some p2)).events
        = [launch_acquire h]
    ∧ (process_activity_launch_hint h w2
          (process_activity_launch_hint h w1 s (some p1)).state (some p2)).events = []
    ∧ (process_activity_launch_hint h w2
          (process_activity_launch_hint h w1 s (some p1)).state (some p2)).state
        = (process_activity_launch_hint h w1 s (some p1)).state
    ∧ (process_activity_launch_hint h w1 s (some p1)).state.launch_handle = w1.perf_handle
    ∧ (process_activity_launch_hint h w1 s (some p1)).state.launch_mode = 1
    ∧ (process_activity_launch_hint h w2
          (process_activity_launch_hint h w1 s (some p1)).state (some p2)).ret
        = HintStatus.HINT_HANDLED := by
  simp [process_activity_launch_hint, hidle, hvalid, launch_acquire]

theorem launch_start_idempotent_witness :
    (process_activity_launch_hint Headers.sample (World.sample 11 8)
        (process_activity_launch_hint Headers.sample (World.sample 10 7) State.init
          (some (Pointee.of_int 0))).state (some (Pointee.of_int 0))).events = [] :=
  (launch_start_idempotent Headers.sample (World.sample 10 7) (World.sample 11 8) State.init
    (Pointee.of_int 0) (Pointee.of_int 0) (by decide) (by decide)).2.1

/-- C7. A launch end (null payload), from any prior state: `release_request` is
called exactly once, with the held handle, if `launch_handle` passes
`CHECK_HANDLE`, and not at all otherwise; afterwards `launch_mode = 0`,
`launch_handle` is `-1` if a handle was released and untouched otherwise, so no
valid handle is held (the sentinel `-1` not being a valid handle); the call
returns `HINT_HANDLED`. -/
theorem launch_end (h : Headers) (w : World) (s : State)
    (hsentinel : h.CHECK_HANDLE (-1) = false) :
    (process_activity_launch_hint h w s none).events =
        (if h.CHECK_HANDLE s.launch_handle = true then [Event.release_request s.launch_handle]
         else [])
    ∧ (process_activity_launch_hint h w s none).state.launch_mode = 0
    ∧ (process_activity_launch_hint h w s none).state.launch_handle =
        (if h.CHECK_HANDLE s.launch_handle = true then -1 else s.launch_handle)
    ∧ h.CHECK_HANDLE (process_activity_launch_hint h w s none).state.launch_handle = false
    ∧ (process_activity_launch_hint h w s none).ret = HintStatus.HINT_HANDLED := by
  cases hc : h.CHECK_HANDLE s.launch_handle <;>
    simp [process_activity_launch_hint, hc, hsentinel]

theorem launch_end_witness :
    (process_activity_launch_hint Headers.sample (World.sample 12 0)
        { State.init with launch_handle := 7, launch_mode := 1 } none).events
      = [Event.release_request 7]
    ∧ (process_activity_launch_hint Headers.sample (World.sample 12 0) State.init none).events
      = [] :=
  ⟨(launch_end Headers.sample (World.sample 12 0)
      { State.init with launch_handle := 7, launch_mode := 1 } (by decide)).1,
   (launch_end Headers.sample (World.sample 12 0) State.init (by decide)).1⟩

/-- C8. A launch start in an idle state for which `perf_hint_enable_with_type`
returns an invalid handle returns `HINT_NONE` and stays idle: `launch_mode = 0`
and the stored handle is not valid; hence a following launch start issues the
acquisition again and a following launch end issues no release. -/
theorem launch_acquire_failure (h : Headers) (w w2 w3 : World) (s : State) (p p2 : Pointee)
    (hidle : s.launch_mode = 0) (hfail : h.CHECK_HANDLE w.perf_handle = false) :
    (process_activity_launch_hint h w s (some p)).ret = HintStatus.HINT_NONE
    ∧ (process_activity_launch_hint h w s (some p)).events = [launch_acquire h]
    ∧ (process_activity_launch_hint h w s (some p)).state.launch_mode = 0
    ∧ h.CHECK_HANDLE (process_activity_launch_hint h w s (some p)).state.launch_handle = false
    ∧ (process_activity_launch_hint h w2
          (process_activity_launch_hint h w s (some p)).state (some p2)).events
        = [launch_acquire h]
    ∧ (process_activity_launch_hint h w3
          (process_activity_launch_hint h w s (some p)).state none).events = [] := by
  have e : process_activity_launch_hint h w s (some p)
      = { state := { s with launch_handle := w.perf_handle }
          ret := HintStatus.HINT_NONE
          events := [launch_acquire h] } := by
    simp [process_activity_launch_hint, hidle, hfail, launch_acquire]
  rw [e]
  refine ⟨rfl, rfl, hidle, hfail, ?_, ?_⟩
  · cases hc : h.CHECK_HANDLE w2.perf_handle <;>
      simp [process_activity_launch_hint, hidle, hc, launch_acquire]
  · simp [process_activity_launch_hint, hfail]

theorem launch_acquire_failure_witness :
    (process_activity_launch_hint Headers.sample (World.sample 10 (-1)) State.init
        (some (Pointee.of_int 0))).ret = HintStatus.HINT_NONE :=
  (launch_acquire_failure Headers.sample (World.sample 10 (-1)) (World.sample 11 7)
    (World.sample 12 0) State.init (Pointee.of_int 0) (Pointee.of_int 0)
    (by decide) (by decide)).1

/-! ## Interactive-mode (display) handler -/

/-- C10. With the governor readable but not of the interactive family,
`set_interactive_override(on)` makes no outbound call at all, changes nothing
but `saved_interactive_mode` (so `display_hint_sent` is as before), records 0
for `on = 0` and 1 for every other `on`, and returns `HINT_HANDLED`. -/
theorem set_interactive_non_interactive_governor (h : Headers) (w : World) (s : State)
    (on_ : Int) (hread : w.governor_rc ≠ -1)
    (hgov : h.is_interactive_governor w.governor = false) :
    (set_interactive_override h w s on_).events = []
    ∧ (set_interactive_override h w s on_).state
        = { s with saved_interactive_mode := if on_ = 0 then 0 else 1 }
    ∧ (set_interactive_override h w s on_).state.display_hint_sent = s.display_hint_sent
    ∧ (set_interactive_override h w s on_).state.saved_interactive_mode
        = (if on_ = 0 then 0 else 1)
    ∧ (set_interactive_override h w s on_).ret = HintStatus.HINT_HANDLED := by
  by_cases hon : on_ = 0 <;>
    simp [set_interactive_override, hread, hgov, hon]

theorem set_interactive_non_interactive_governor_witness :
    (set_interactive_override Headers.sample World.sample_schedutil State.init 0).events = []
    ∧ (set_interactive_override Headers.sample World.sample_schedutil
        State.init 0).state.saved_interactive_mode = 0 :=
  ⟨(set_interactive_non_interactive_governor Headers.sample World.sample_schedutil
      State.init 0 (by decide) (by decide)).1,
   (set_interactive_non_interactive_governor Headers.sample World.sample_schedutil
      State.init 0 (by decide) (by decide)).2.2.2.1⟩

/-! ## Runs: general facts -/

theorem run_append {α : Type} (step : State → α → State × List Event) (s : State)
    (xs ys : List α) :
    run step s (xs ++ ys)
      = ((run step (run step s xs).1 ys).1, (run step s xs).2 ++ (run step (run step s xs).1 ys).2) := by
  induction xs generalizing s with
  | nil => simp [run]
  | cons x xs ih => simp [run, ih]

theorem count_perform_display_off_sent (h : Headers) (w : World) (s : State)
    (hw : w.interactive h) (hs : s.display_hint_sent = 1) :
    count_perform (display_off_step h s w).2 = 0
    ∧ (display_off_step h s w).1.display_hint_sent = 1 := by
  obtain ⟨hr, hg⟩ := hw
  simp [display_off_step, set_interactive_override, hr, hg, hs, count_perform,
    Event.is_perform_hint_action]

theorem display_off_first (h : Headers) (w : World) (s : State)
    (hw : w.interactive h) (hs : s.display_hint_sent = 0) :
    count_perform (display_off_step h s w).2 = 1
    ∧ (display_off_step h s w).1.display_hint_sent = 1
    ∧ ∃ rv n, (display_off_step h s w).2
        = [Event.soc_id_open, Event.perform_hint_action h.DISPLAY_STATE_HINT_ID rv n] := by
  obtain ⟨hr, hg⟩ := hw
  simp [display_off_step, set_interactive_override, hr, hg, hs, count_perform,
    Event.is_perform_hint_action]

theorem display_off_run_sent (h : Headers) (ws : List World) (s : State)
    (hw : ∀ w ∈ ws, w.interactive h) (hs : s.display_hint_sent = 1) :
    (run (display_off_step h) s ws).2.map count_perform = List.replicate ws.length 0
    ∧ (run (display_off_step h) s ws).1.display_hint_sent = 1 := by
  induction ws generalizing s with
  | nil => simp [run, hs]
  | cons w ws ih =>
    have hstep := count_perform_display_off_sent h w s (hw w (List.mem_cons_self _ _)) hs
    have hrest := ih (display_off_step h s w).1
      (fun x hx => hw x (List.mem_cons_of_mem _ hx)) hstep.2
    simp [run, hstep.1, hrest.1, hrest.2, List.replicate_succ]

theorem display_off_run_fresh (h : Headers) (w : World) (ws : List World) (s : State)
    (hw : ∀ x ∈ w :: ws, x.interactive h) (hs : s.display_hint_sent = 0) :
    (run (display_off_step h) s (w :: ws)).2.map count_perform
        = 1 :: List.replicate ws.length 0
    ∧ (run (display_off_step h) s (w :: ws)).1.display_hint_sent = 1 := by
  have hstep := display_off_first h w s (hw w (List.mem_cons_self _ _)) hs
  have hrest := display_off_run_sent h ws (display_off_step h s w).1
    (fun x hx => hw x (List.mem_cons_of_mem _ hx)) hstep.2.1
  simp [run, hstep.1, hrest.1, hrest.2]

/-- C9. With the governor readable and interactive at every call, a run of
k >= 1 consecutive `set_interactive_override(on = 0)` calls that starts with
`display_hint_sent = 0` issues `perform_hint_action(DISPLAY_STATE_HINT_ID, ..)`
on its first call and on no other; a following `set_interactive_override(on)`
with `on != 0` issues no `perform_hint_action`, and the run of display-off calls
after it again applies the table on its first call and on no other. -/
theorem display_off_idempotent (h : Headers) (s : State) (w1 : World) (offs1 : List World)
    (won : World) (on_ : Int) (w2 : World) (offs2 : List World)
    (hs : s.display_hint_sent = 0) (hon : on_ ≠ 0)
    (h1 : ∀ w ∈ w1 :: offs1, w.interactive h) (hwon : won.interactive h)
    (h2 : ∀ w ∈ w2 :: offs2, w.interactive h) :
    (run (display_off_step h) s (w1 :: offs1)).2.map count_perform
        = 1 :: List.replicate offs1.length 0
    ∧ (∃ rv n, (set_interactive_override h w1 s 0).events
        = [Event.soc_id_open, Event.perform_hint_action h.DISPLAY_STATE_HINT_ID rv n])
    ∧ count_perform (set_interactive_override h won
        (run (display_off_step h) s (w1 :: offs1)).1 on_).events = 0
    ∧ (run (display_off_step h)
        (set_interactive_override h won (run (display_off_step h) s (w1 :: offs1)).1 on_).state
        (w2 :: offs2)).2.map count_perform = 1 :: List.replicate offs2.length 0
    ∧ (∃ rv n, (set_interactive_override h w2
        (set_interactive_override h won (run (display_off_step h) s (w1 :: offs1)).1 on_).state
        0).events
        = [Event.soc_id_open, Event.perform_hint_action h.DISPLAY_STATE_HINT_ID rv n]) := by
  have hon_state : (set_interactive_override h won
      (run (display_off_step h) s (w1 :: offs1)).1 on_).state.display_hint_sent = 0 := by
    obtain ⟨hr, hg⟩ := hwon
    simp [set_interactive_override, hr, hg, hon]
  refine ⟨(display_off_run_fresh h w1 offs1 s h1 hs).1,
    (display_off_first h w1 s (h1 w1 (List.mem_cons_self _ _)) hs).2.2, ?_,
    (display_off_run_fresh h w2 offs2 _ h2 hon_state).1,
    (display_off_first h w2 _ (h2 w2 (List.mem_cons_self _ _)) hon_state).2.2⟩
  obtain ⟨hr, hg⟩ := hwon
  simp [set_interactive_override, hr, hg, hon, count_perform, Event.is_perform_hint_action]

theorem display_off_idempotent_witness :
    (run (display_off_step Headers.sample) State.init
        [World.sample 10 0, World.sample 11 0, World.sample 12 0]).2.map count_perform
      = [1, 0, 0] :=
  (display_off_idempotent Headers.sample State.init (World.sample 10 0)
    [World.sample 11 0, World.sample 12 0] (World.sample 13 0) 1 (World.sample 14 0) []
    (by decide) (by decide) (by decide) (by decide) (by decide)).1

/-! ## Video-encode hint: reference counting -/

theorem video_start_step (h : Headers) (c : World × Pointee) (s : State)
    (hc : c.1.interactive h ∧ parses_with_state h c.2 1) :
    (video_encode_step h s c).1.camera_hint_ref_count = s.camera_hint_ref_count + 1
    ∧ (video_encode_step h s c).1.video_encode_hint_sent
        = (if s.camera_hint_ref_count = 0 ∧ s.video_encode_hint_sent = 0 then 1
           else s.video_encode_hint_sent)
    ∧ count_perform (video_encode_step h s c).2
        = (if s.camera_hint_ref_count = 0 ∧ s.video_encode_hint_sent = 0 then 1 else 0)
    ∧ count_undo (video_encode_step h s c).2 = 0 := by
  obtain ⟨⟨_, hg⟩, hp⟩ := hc
  unfold parses_with_state initial_metadata at hp
  cases hm : h.parse_video_encode_metadata c.2.as_str
      { state := -1, hint_id := h.DEFAULT_VIDEO_ENCODE_HINT_ID } with
  | none => simp [hm] at hp
  | some m =>
    have hst : m.state = 1 := by simpa [hm] using hp
    by_cases h0 : s.camera_hint_ref_count = 0 <;>
    by_cases h1 : s.video_encode_hint_sent = 0 <;>
      simp [video_encode_step, process_video_encode_hint, hm, hst, hg, h0, h1, count_perform,
        count_undo, Event.is_perform_hint_action, Event.is_undo_hint_action]

theorem video_stop_step (h : Headers) (c : World × Pointee) (s : State)
    (hc : c.1.interactive h ∧ parses_with_state h c.2 0) :
    (video_encode_step h s c).1.camera_hint_ref_count = s.camera_hint_ref_count - 1
    ∧ (video_encode_step h s c).1.video_encode_hint_sent
        = (if s.camera_hint_ref_count = 1 then 0 else s.video_encode_hint_sent)
    ∧ count_perform (video_encode_step h s c).2 = 0
    ∧ count_undo (video_encode_step h s c).2
        = (if s.camera_hint_ref_count = 1 then 1 else 0) := by
  obtain ⟨⟨_, hg⟩, hp⟩ := hc
  unfold parses_with_state initial_metadata at hp
  cases hm : h.parse_video_encode_metadata c.2.as_str
      { state := -1, hint_id := h.DEFAULT_VIDEO_ENCODE_HINT_ID } with
  | none => simp [hm] at hp
  | some m =>
    have hst : m.state = 0 := by simpa [hm] using hp
    have hsub : s.camera_hint_ref_count - 1 = 0 ↔ s.camera_hint_ref_count = 1 := by omega
    by_cases h1 : s.camera_hint_ref_count = 1 <;>
      simp [video_encode_step, process_video_encode_hint, hm, hst, hg, hsub, h1, count_perform,
        count_undo, Event.is_perform_hint_action, Event.is_undo_hint_action]

/-- Further starts while the count is already positive only move the counter. -/
theorem video_start_run_active (h : Headers) (cs : List (World × Pointee)) (s : State)
    (hcs : ∀ c ∈ cs, c.1.interactive h ∧ parses_with_state h c.2 1)
    (hpos : 1 ≤ s.camera_hint_ref_count) :
    (run (video_encode_step h) s cs).2.map count_perform = List.replicate cs.length 0
    ∧ (run (video_encode_step h) s cs).2.map count_undo = List.replicate cs.length 0
    ∧ (run (video_encode_step h) s cs).1.camera_hint_ref_count
        = s.camera_hint_ref_count + cs.length
    ∧ (run (video_encode_step h) s cs).1.video_encode_hint_sent = s.video_encode_hint_sent := by
  induction cs generalizing s with
  | nil => simp [run]
  | cons c cs ih =>
    obtain ⟨e1, e2, e3, e4⟩ := video_start_step h c s (hcs c (List.mem_cons_self _ _))
    have hne : ¬ s.camera_hint_ref_count = 0 := by omega
    simp only [hne, false_and, if_false] at e2 e3
    obtain ⟨r1, r2, r3, r4⟩ := ih (video_encode_step h s c).1
      (fun x hx => hcs x (List.mem_cons_of_mem _ hx)) (by omega)
    refine ⟨?_, ?_, ?_, ?_⟩
    · simp [run, e3, r1, List.replicate_succ]
    · simp [run, e4, r2, List.replicate_succ]
    · simp only [run, r3, e1, List.length_cons, Nat.cast_add, Nat.cast_one]
      omega
    · simp [run, r4, e2]

/-- Stops that leave the count positive only move the counter. -/
theorem video_stop_run_active (h : Headers) (cs : List (World × Pointee)) (s : State)
    (hcs : ∀ c ∈ cs, c.1.interactive h ∧ parses_with_state h c.2 0)
    (habove : (cs.length : Int) < s.camera_hint_ref_count) :
    (run (video_encode_step h) s cs).2.map count_perform = List.replicate cs.length 0
    ∧ (run (video_encode_step h) s cs).2.map count_undo = List.replicate cs.length 0
    ∧ (run (video_encode_step h) s cs).1.camera_hint_ref_count
        = s.camera_hint_ref_count - cs.length
    ∧ (run (video_encode_step h) s cs).1.video_encode_hint_sent = s.video_encode_hint_sent := by
  induction cs generalizing s with
  | nil => simp [run]
  | cons c cs ih =>
    simp only [List.length_cons, Nat.cast_add, Nat.cast_one] at habove
    obtain ⟨e1, e2, e3, e4⟩ := video_stop_step h c s (hcs c (List.mem_cons_self _ _))
    have hne : ¬ s.camera_hint_ref_count = 1 := by omega
    simp only [hne, if_false] at e2 e4
    obtain ⟨r1, r2, r3, r4⟩ := ih (video_encode_step h s c).1
      (fun x hx => hcs x (List.mem_cons_of_mem _ hx)) (by omega)
    refine ⟨?_, ?_, ?_, ?_⟩
    · simp [run, e3, r1, List.replicate_succ]
    · simp [run, e4, r2, List.replicate_succ]
    · simp only [run, r3, e1, List.length_cons, Nat.cast_add, Nat.cast_one]
      omega
    · simp [run, r4, e2]

/-- C1. From a state with `camera_hint_ref_count = 0` and
`video_encode_hint_sent = 0` (the initial state in particular), with the
governor readable and interactive on every call and every blob parsing, N >= 1
calls with state 1 followed by N calls with state 0 issue `perform_hint_action`
once, on the first start, and `undo_hint_action` once, on the last stop, and
end with `camera_hint_ref_count = 0` and `video_encode_hint_sent = 0`. -/
theorem video_encode_ref_counting (h : Headers) (s : State)
    (starts stops : List (World × Pointee))
    (hcount : s.camera_hint_ref_count = 0) (hsent : s.video_encode_hint_sent = 0)
    (hN : 1 ≤ starts.length) (hbal : stops.length = starts.length)
    (hstarts : ∀ c ∈ starts, c.1.interactive h ∧ parses_with_state h c.2 1)
    (hstops : ∀ c ∈ stops, c.1.interactive h ∧ parses_with_state h c.2 0) :
    (run (video_encode_step h) s starts).2.map count_perform
        = 1 :: List.replicate (starts.length - 1) 0
    ∧ (run (video_encode_step h) s starts).2.map count_undo
        = List.replicate starts.length 0
    ∧ (run (video_encode_step h) (run (video_encode_step h) s starts).1 stops).2.map
        count_perform = List.replicate starts.length 0
    ∧ (run (video_encode_step h) (run (video_encode_step h) s starts).1 stops).2.map
        count_undo = List.replicate (starts.length - 1) 0 ++ [1]
    ∧ (run (video_encode_step h)
        (run (video_encode_step h) s starts).1 stops).1.camera_hint_ref_count = 0
    ∧ (run (video_encode_step h)
        (run (video_encode_step h) s starts).1 stops).1.video_encode_hint_sent = 0 := by
  -- the starts
  obtain _ | ⟨c1, cs⟩ := starts
  · simp at hN
  obtain ⟨e1, e2, e3, e4⟩ := video_start_step h c1 s (hstarts c1 (List.mem_cons_self _ _))
  simp only [hcount, hsent, and_self, if_true, zero_add] at e1 e2 e3
  obtain ⟨r1, r2, r3, r4⟩ := video_start_run_active h cs (video_encode_step h s c1).1
    (fun x hx => hstarts x (List.mem_cons_of_mem _ hx)) (by omega)
  have hrun : run (video_encode_step h) s (c1 :: cs)
      = ((run (video_encode_step h) (video_encode_step h s c1).1 cs).1,
         (video_encode_step h s c1).2
           :: (run (video_encode_step h) (video_encode_step h s c1).1 cs).2) := rfl
  have hcnt1 : (run (video_encode_step h) s (c1 :: cs)).1.camera_hint_ref_count
      = 1 + cs.length := by rw [hrun, r3, e1]
  have hsent1 : (run (video_encode_step h) s (c1 :: cs)).1.video_encode_hint_sent = 1 := by
    rw [hrun, r4, e2]
  have g1 : (run (video_encode_step h) s (c1 :: cs)).2.map count_perform
      = 1 :: List.replicate ((c1 :: cs).length - 1) 0 := by simp [hrun, e3, r1]
  have g2 : (run (video_encode_step h) s (c1 :: cs)).2.map count_undo
      = List.replicate (c1 :: cs).length 0 := by
    simp [hrun, e4, r2, List.replicate_succ]
  refine ⟨g1, g2, ?_⟩
  -- the stops: all but the last, then the last
  generalize (run (video_encode_step h) s (c1 :: cs)).1 = s1 at hcnt1 hsent1 ⊢
  rcases List.eq_nil_or_concat stops with hnil | ⟨front, last, hstops_eq⟩
  · simp [hnil] at hbal
  rw [List.concat_eq_append] at hstops_eq
  subst hstops_eq
  have hlen : front.length = cs.length := by simpa using hbal
  obtain ⟨f1, f2, f3, f4⟩ := video_stop_run_active h front s1
    (fun x hx => hstops x (List.mem_append_left _ hx)) (by rw [hcnt1, hlen]; omega)
  obtain ⟨l1, l2, l3, l4⟩ := video_stop_step h last (run (video_encode_step h) s1 front).1
    (hstops last (List.mem_append_right _ (List.mem_singleton_self _)))
  have hone : (run (video_encode_step h) s1 front).1.camera_hint_ref_count = 1 := by
    rw [f3, hcnt1, hlen]; omega
  simp only [hone, if_true, sub_self] at l1 l2 l4
  rw [run_append]
  refine ⟨?_, ?_, ?_, ?_⟩
  · simp [run, f1, l3, hlen, List.replicate_succ']
  · simp [run, f2, l4, hlen]
  · simpa [run] using l1
  · simpa [run] using l2

theorem video_encode_ref_counting_witness :
    (run (video_encode_step Headers.sample) State.init
        [(World.sample 10 0, Pointee.of_str "state=1"),
         (World.sample 11 0, Pointee.of_str "state=1")]).2.map count_perform = [1, 0]
    ∧ (run (video_encode_step Headers.sample)
        (run (video_encode_step Headers.sample) State.init
          [(World.sample 10 0, Pointee.of_str "state=1"),
           (World.sample 11 0, Pointee.of_str "state=1")]).1
        [(World.sample 12 0, Pointee.of_str "state=0"),
         (World.sample 13 0, Pointee.of_str "state=0")]).2.map count_undo = [0, 1] :=
  ⟨(video_encode_ref_counting Headers.sample State.init
      [(World.sample 10 0, Pointee.of_str "state=1"),
       (World.sample 11 0, Pointee.of_str "state=1")]
      [(World.sample 12 0, Pointee.of_str "state=0"),
       (World.sample 13 0, Pointee.of_str "state=0")]
      (by decide) (by decide) (by decide) (by decide) (by decide) (by decide)).1,
   (video_encode_ref_counting Headers.sample State.init
      [(World.sample 10 0, Pointee.of_str "state=1"),
       (World.sample 11 0, Pointee.of_str "state=1")]
      [(World.sample 12 0, Pointee.of_str "state=0"),
       (World.sample 13 0, Pointee.of_str "state=0")]
      (by decide) (by decide) (by decide) (by decide) (by decide) (by decide)).2.2.2.1⟩

/-! ## Resource tables -/

theorem memcpy_keeps_tables :
    memcpy_resource_values display_res_SDM630 = display_res_SDM630
    ∧ memcpy_resource_values display_res_other = display_res_other
    ∧ memcpy_resource_values video_encode_res_SDM630 = video_encode_res_SDM630
    ∧ memcpy_resource_values video_encode_res_other = video_encode_res_other := by
  decide

theorem is_target_SDM630_contents (soc_id : Int) :
    is_target_SDM630 (soc_id_node.contents soc_id) = true
      ↔ (soc_id = 318 ∨ soc_id = 327 ∨ soc_id = 385) := by
  simp [is_target_SDM630, or_assoc]

/-- C11. With SoC id `soc_id` read from the node, every `perform_hint_action`
that `set_interactive_override` or `process_video_encode_hint` issues carries
the big-core table if `soc_id` is 318, 327 or 385 and the little-core table for
every other id, with the values the spec lists; `num_resources` is the table
length (8/10 for display-off, 12/8 for video-encode), at most 20, and the
buffer handed over is the whole table. -/
theorem soc_table_selection (h : Headers) (w : World) (s : State) (soc_id : Int)
    (on_ : Int) (metadata : Option Pointee) (hsoc : w.soc = soc_id_node.contents soc_id) :
    (∀ id rv n, Event.perform_hint_action id rv n ∈ (set_interactive_override h w s on_).events →
      rv = (if soc_id = 318 ∨ soc_id = 327 ∨ soc_id = 385
            then [0x41414000, 0x459, 0x41410000, 0x5F, 0x41400000, 0x4, 0x41820000, 0xA]
            else [0x41414100, 0x386, 0x41410100, 0x5F, 0x41400100, 0x4, 0x41820000, 0xA,
                  0x40C54000, 0x1F4])
      ∧ n = rv.length
      ∧ n = (if soc_id = 318 ∨ soc_id = 327 ∨ soc_id = 385 then 8 else 10)
      ∧ n ≤ 20)
    ∧ (∀ id rv n,
        Event.perform_hint_action id rv n ∈ (process_video_encode_hint h w s metadata).2 →
      rv = (if soc_id = 318 ∨ soc_id = 327 ∨ soc_id = 385
            then [0x41414000, 0x459, 0x41410000, 0x5F, 0x41400000, 0x4, 0x41420000, 0x5F,
                  0x40C2C000, 0x5, 0x41820000, 0xA]
            else [0x41414100, 0x386, 0x41410100, 0x5F, 0x41400100, 0x4, 0x41820000, 0xA])
      ∧ n = rv.length
      ∧ n = (if soc_id = 318 ∨ soc_id = 327 ∨ soc_id = 385 then 12 else 8)
      ∧ n ≤ 20) := by
  obtain ⟨m1, m2, m3, m4⟩ := memcpy_keeps_tables
  have hsel := is_target_SDM630_contents soc_id
  constructor
  · intro id rv n hmem
    unfold set_interactive_override at hmem
    rw [hsoc] at hmem
    by_cases hbig : soc_id = 318 ∨ soc_id = 327 ∨ soc_id = 385
    · have ht : is_target_SDM630 (soc_id_node.contents soc_id) = true := hsel.mpr hbig
      simp only [ht, if_true, m1] at hmem
      rw [if_pos hbig, if_pos hbig]
      split_ifs at hmem <;> simp at hmem
      obtain ⟨_, rfl, rfl⟩ := hmem
      decide
    · have ht : is_target_SDM630 (soc_id_node.contents soc_id) = false := by
        cases hc : is_target_SDM630 (soc_id_node.contents soc_id)
        · rfl
        · exact absurd (hsel.mp hc) hbig
      simp only [ht, Bool.false_eq_true, if_false, m2] at hmem
      rw [if_neg hbig, if_neg hbig]
      split_ifs at hmem <;> simp at hmem
      obtain ⟨_, rfl, rfl⟩ := hmem
      decide
  · intro id rv n hmem
    unfold process_video_encode_hint at hmem
    rw [hsoc] at hmem
    by_cases hbig : soc_id = 318 ∨ soc_id = 327 ∨ soc_id = 385
    · have ht : is_target_SDM630 (soc_id_node.contents soc_id) = true := hsel.mpr hbig
      simp only [ht, if_true, m3] at hmem
      rw [if_pos hbig, if_pos hbig]
      split at hmem
      · simp at hmem
      · split at hmem
        · simp at hmem
        · split_ifs at hmem <;> simp at hmem
          obtain ⟨_, rfl, rfl⟩ := hmem
          decide
    · have ht : is_target_SDM630 (soc_id_node.contents soc_id) = false := by
        cases hc : is_target_SDM630 (soc_id_node.contents soc_id)
        · rfl
        · exact absurd (hsel.mp hc) hbig
      simp only [ht, Bool.false_eq_true, if_false, m4] at hmem
      rw [if_neg hbig, if_neg hbig]
      split at hmem
      · simp at hmem
      · split at hmem
        · simp at hmem
        · split_ifs at hmem <;> simp at hmem
          obtain ⟨_, rfl, rfl⟩ := hmem
          decide

theorem soc_table_selection_witness :
    ([0x41414100, 0x386, 0x41410100, 0x5F, 0x41400100, 0x4, 0x41820000, 0xA,
        0x40C54000, 0x1F4] : List Int)
      = (if (317 : Int) = 318 ∨ (317 : Int) = 327 ∨ (317 : Int) = 385
         then [0x41414000, 0x459, 0x41410000, 0x5F, 0x41400000, 0x4, 0x41820000, 0xA]
         else [0x41414100, 0x386, 0x41410100, 0x5F, 0x41400100, 0x4, 0x41820000, 0xA,
               0x40C54000, 0x1F4])
    ∧ ([0x41414000, 0x459, 0x41410000, 0x5F, 0x41400000, 0x4, 0x41420000, 0x5F,
        0x40C2C000, 0x5, 0x41820000, 0xA] : List Int)
      = (if (327 : Int) = 318 ∨ (327 : Int) = 327 ∨ (327 : Int) = 385
         then [0x41414000, 0x459, 0x41410000, 0x5F, 0x41400000, 0x4, 0x41420000, 0x5F,
               0x40C2C000, 0x5, 0x41820000, 0xA]
         else [0x41414100, 0x386, 0x41410100, 0x5F, 0x41400100, 0x4, 0x41820000, 0xA]) :=
  ⟨((soc_table_selection Headers.sample (World.sample 10 0) State.init 317 0 none rfl).1
      0x0C00 _ 10 (by decide)).1,
   ((soc_table_selection Headers.sample
      { World.sample 10 0 with soc := soc_id_node.contents 327 } State.init 327 0
      (some (Pointee.of_str "state=1")) rfl).2 0x0A00 _ 12 (by decide)).1⟩

/-! ## Display on -/

/-- C12, as the code has it. With the governor readable and interactive,
`set_interactive_override(on)` for `on != 0` issues
`undo_hint_action(DISPLAY_STATE_HINT_ID)` exactly once and nothing else, clears
`display_hint_sent`, records the mode 1 and returns `HINT_HANDLED`, whatever
`display_hint_sent` was: the flag is not consulted on this path. -/
theorem display_on_always_undoes (h : Headers) (w : World) (s : State) (on_ : Int)
    (hon : on_ ≠ 0) (hw : w.interactive h) :
    (set_interactive_override h w s on_).events
        = [Event.undo_hint_action h.DISPLAY_STATE_HINT_ID]
    ∧ (set_interactive_override h w s on_).state
        = { s with display_hint_sent := 0, saved_interactive_mode := 1 }
    ∧ (set_interactive_override h w s on_).state.display_hint_sent = 0
    ∧ (set_interactive_override h w s on_).ret = HintStatus.HINT_HANDLED := by
  obtain ⟨hr, hg⟩ := hw
  simp [set_interactive_override, hr, hg, hon]

theorem display_on_always_undoes_witness :
    (set_interactive_override Headers.sample (World.sample 10 0)
        { State.init with display_hint_sent := 1 } 1).events
      = [Event.undo_hint_action 0x0C00] :=
  (display_on_always_undoes Headers.sample (World.sample 10 0)
    { State.init with display_hint_sent := 1 } 1 (by decide) (by decide)).1

/-- C12 fails as stated: in the initial state (`display_hint_sent = 0`, tuning
never applied) a display-on call under the `interactive` governor does call the
performance service, with `undo_hint_action`. -/
theorem display_on_never_applied_still_undoes :
    State.init.display_hint_sent = 0
    ∧ (World.sample 10 0).interactive Headers.sample
    ∧ (set_interactive_override Headers.sample (World.sample 10 0) State.init 1).events
        = [Event.undo_hint_action 0x0C00]
    ∧ (set_interactive_override Headers.sample (World.sample 10 0) State.init 1).events
        ≠ [] := by
  decide

/-! ## Unreadable governor, dropped metadata -/

/-- C13. When `get_scaling_governor` returns -1, `set_interactive_override`
returns `HINT_HANDLED` for every `on`, makes no outbound call (no
`perform_hint_action`, no `undo_hint_action`, no read of the SoC id) and leaves
the state, `display_hint_sent` and `saved_interactive_mode` included, as it
was. -/
theorem set_interactive_governor_unreadable (h : Headers) (w : World) (s : State) (on_ : Int)
    (hrc : w.governor_rc = -1) :
    (set_interactive_override h w s on_).ret = HintStatus.HINT_HANDLED
    ∧ (set_interactive_override h w s on_).events = []
    ∧ (set_interactive_override h w s on_).state = s
    ∧ (set_interactive_override h w s on_).state.display_hint_sent = s.display_hint_sent
    ∧ (set_interactive_override h w s on_).state.saved_interactive_mode
        = s.saved_interactive_mode := by
  simp [set_interactive_override, hrc]

theorem set_interactive_governor_unreadable_witness :
    (set_interactive_override Headers.sample World.sample_unreadable State.init 0).events = []
    ∧ (set_interactive_override Headers.sample World.sample_unreadable State.init 0).state
        = State.init :=
  ⟨(set_interactive_governor_unreadable Headers.sample World.sample_unreadable State.init 0
      (by decide)).2.1,
   (set_interactive_governor_unreadable Headers.sample World.sample_unreadable State.init 0
      (by decide)).2.2.1⟩

/-- C14. For null metadata, metadata the parser rejects, and parsed metadata
whose state is neither 0 nor 1, `process_video_encode_hint` makes no outbound
call and leaves the state (so `camera_hint_ref_count` and
`video_encode_hint_sent`) unchanged, and
`power_hint_override(POWER_HINT_VIDEO_ENCODE, ..)` does the same and returns
`HINT_HANDLED`. -/
theorem video_encode_metadata_dropped (h : Headers) (w : World) (s : State)
    (metadata : Option Pointee) (hdrop : metadata_dropped h metadata) :
    process_video_encode_hint h w s metadata = (s, [])
    ∧ (process_video_encode_hint h w s metadata).1.camera_hint_ref_count
        = s.camera_hint_ref_count
    ∧ (process_video_encode_hint h w s metadata).1.video_encode_hint_sent
        = s.video_encode_hint_sent
    ∧ power_hint_override h w s power_hint_t.POWER_HINT_VIDEO_ENCODE metadata
        = { state := s, ret := HintStatus.HINT_HANDLED, events := [] } := by
  have key : process_video_encode_hint h w s metadata = (s, []) := by
    cases metadata with
    | none => simp [process_video_encode_hint]
    | some p =>
      unfold metadata_dropped initial_metadata at hdrop
      cases hm : h.parse_video_encode_metadata p.as_str
          { state := -1, hint_id := h.DEFAULT_VIDEO_ENCODE_HINT_ID } with
      | none => simp [process_video_encode_hint, hm]
      | some m =>
        simp only [hm] at hdrop
        simp [process_video_encode_hint, hm, hdrop.1, hdrop.2]
  refine ⟨key, by rw [key], by rw [key], ?_⟩
  simp [power_hint_override, key]

theorem video_encode_metadata_dropped_witness :
    process_video_encode_hint Headers.sample (World.sample 10 0) State.init none
        = (State.init, [])
    ∧ process_video_encode_hint Headers.sample (World.sample 10 0) State.init
        (some (Pointee.of_str "garbage")) = (State.init, [])
    ∧ process_video_encode_hint Headers.sample_lenient (World.sample 10 0) State.init
        (some (Pointee.of_str "hint_id=2560")) = (State.init, []) :=
  ⟨(video_encode_metadata_dropped Headers.sample (World.sample 10 0) State.init none
      (by decide)).1,
   (video_encode_metadata_dropped Headers.sample (World.sample 10 0) State.init
      (some (Pointee.of_str "garbage")) (by decide)).1,
   (video_encode_metadata_dropped Headers.sample_lenient (World.sample 10 0) State.init
      (some (Pointee.of_str "hint_id=2560")) (by decide)).1⟩

/-! ## Two interaction calls in quick succession -/

theorem process_interaction_hint_eq (h : Headers) (w : World) (s : State)
    (data : Option Pointee) :
    process_interaction_hint h w s data
      = (if h.calc_timespan_us s.s_previous_boost_timespec w.now < 250000
            ∧ applied_duration data ≤ 750 then (s, [])
         else ({ s with s_previous_boost_timespec := w.now
                        s_previous_duration := applied_duration data },
               [scroll_boost h (applied_duration data)])) := by
  have hc : ∀ d : Int, (if d > 400 then (if d > 5000 then 5000 else d) else 400)
      = clamp d 400 5000 := by
    intro d
    unfold clamp
    split_ifs with h1 h2 <;> omega
  cases data with
  | none =>
    simp only [process_interaction_hint, kMinInteractiveDuration, applied_duration, scroll_boost]
  | some p =>
    simp only [process_interaction_hint, kMinInteractiveDuration, kMaxInteractiveDuration,
      applied_duration, hc, scroll_boost]

theorem applied_duration_le_750 (data : Option Pointee) (hshort : requests_at_most data 750) :
    applied_duration data ≤ 750 := by
  cases data with
  | none => simp [applied_duration]
  | some p =>
    simp only [requests_at_most] at hshort
    simp only [applied_duration, clamp]
    omega

/-- C15 fails as stated: after a boost at 10.0 s, taps at 10.2 s and 10.3 s are
100 ms apart and both request 500 ms; the first of the two is debounced, so the
second is measured against the boost at 10.0 s, 300 ms earlier, and issues a
request. -/
theorem interaction_tap_after_debounced_tap_boosts :
    calc_timespan_us (World.sample_ms 10200).now (World.sample_ms 10300).now = 100000
    ∧ requests_at_most (some (Pointee.of_int 500)) 750
    ∧ (run (interaction_step Headers.sample) State.init
        [(World.sample_ms 10000, some (Pointee.of_int 500)),
         (World.sample_ms 10200, some (Pointee.of_int 500)),
         (World.sample_ms 10300, some (Pointee.of_int 500))]).2
      = [[scroll_boost Headers.sample 500], [], [scroll_boost Headers.sample 500]] := by
  decide

theorem interaction_run_timestamp (h : Headers) (cs : List (World × Option Pointee))
    (s0 : State) :
    (run (interaction_step h) s0 cs).1.s_previous_boost_timespec
      = last_boost_now s0.s_previous_boost_timespec cs (run (interaction_step h) s0 cs).2 := by
  induction cs generalizing s0 with
  | nil => simp [run, last_boost_now]
  | cons c cs ih =>
    have hstep := process_interaction_hint_eq h c.1 s0 c.2
    simp only [run, last_boost_now, ih, interaction_step]
    by_cases hsup : h.calc_timespan_us s0.s_previous_boost_timespec c.1.now < 250000
        ∧ applied_duration c.2 ≤ 750
    · rw [if_pos hsup] at hstep
      simp [hstep]
    · rw [if_neg hsup] at hstep
      simp [hstep]

/-- C15, as the code has it. Take two consecutive interaction calls less than
250 ms apart that both request at most 750 ms, made in the state `s` that a run
of earlier calls has left.  If the first issued its request, the second issues
none.  If the first was itself suppressed, it leaves the state as it was, and
the second issues no request exactly when less than 250 ms have elapsed since
the stored previous-boost timestamp; that timestamp is the clock reading of the
last call of the run that did issue a request. -/
theorem interaction_tap_after_boost_debounced (h : Headers) (s0 : State)
    (cs : List (World × Option Pointee)) (s : State) (w1 w2 : World)
    (data1 data2 : Option Pointee)
    (hs : s = (run (interaction_step h) s0 cs).1)
    (hclose : h.calc_timespan_us w1.now w2.now < 250000)
    (hshort1 : requests_at_most data1 750) (hshort2 : requests_at_most data2 750) :
    s.s_previous_boost_timespec
        = last_boost_now s0.s_previous_boost_timespec cs (run (interaction_step h) s0 cs).2
    ∧ ((process_interaction_hint h w1 s data1).2 ≠ [] →
        (process_interaction_hint h w2 (process_interaction_hint h w1 s data1).1 data2).2 = [])
    ∧ ((process_interaction_hint h w1 s data1).2 = [] →
        (process_interaction_hint h w1 s data1).1 = s
        ∧ ((process_interaction_hint h w2 (process_interaction_hint h w1 s data1).1 data2).2 = []
            ↔ h.calc_timespan_us s.s_previous_boost_timespec w2.now < 250000)) := by
  have _ := hshort1
  have h2 := applied_duration_le_750 data2 hshort2
  refine ⟨by rw [hs]; exact interaction_run_timestamp h cs s0, ?_, ?_⟩
  · intro hissued
    rw [process_interaction_hint_eq h w1 s data1] at hissued ⊢
    by_cases hsup : h.calc_timespan_us s.s_previous_boost_timespec w1.now < 250000
        ∧ applied_duration data1 ≤ 750
    · simp [hsup] at hissued
    · rw [if_neg hsup, process_interaction_hint_eq]
      simp [hclose, h2]
  · intro hsuppressed
    rw [process_interaction_hint_eq h w1 s data1] at hsuppressed ⊢
    by_cases hsup : h.calc_timespan_us s.s_previous_boost_timespec w1.now < 250000
        ∧ applied_duration data1 ≤ 750
    · rw [if_pos hsup, process_interaction_hint_eq]
      refine ⟨rfl, ?_⟩
      by_cases hlate : h.calc_timespan_us s.s_previous_boost_timespec w2.now < 250000
      · simp [hlate, h2]
      · simp [hlate]
    · simp [hsup] at hsuppressed

theorem interaction_tap_after_boost_debounced_witness :
    ((process_interaction_hint Headers.sample (World.sample_ms 10000) State.init
          (some (Pointee.of_int 500))).2 ≠ [] →
      (process_interaction_hint Headers.sample (World.sample_ms 10200)
          (process_interaction_hint Headers.sample (World.sample_ms 10000) State.init
            (some (Pointee.of_int 500))).1 (some (Pointee.of_int 500))).2 = [])
    ∧ (run (interaction_step Headers.sample) State.init
          [(World.sample_ms 10000, some (Pointee.of_int 500))]).1.s_previous_boost_timespec
        = last_boost_now State.init.s_previous_boost_timespec
            [(World.sample_ms 10000, some (Pointee.of_int 500))]
            (run (interaction_step Headers.sample) State.init
              [(World.sample_ms 10000, some (Pointee.of_int 500))]).2
    ∧ ((process_interaction_hint Headers.sample (World.sample_ms 10300)
          (process_interaction_hint Headers.sample (World.sample_ms 10200)
            (run (interaction_step Headers.sample) State.init
              [(World.sample_ms 10000, some (Pointee.of_int 500))]).1
            (some (Pointee.of_int 500))).1 (some (Pointee.of_int 500))).2 = []
        ↔ Headers.sample.calc_timespan_us
            (run (interaction_step Headers.sample) State.init
              [(World.sample_ms 10000, some (Pointee.of_int 500))]).1.s_previous_boost_timespec
            (World.sample_ms 10300).now < 250000) :=
  ⟨(interaction_tap_after_boost_debounced Headers.sample State.init [] State.init
      (World.sample_ms 10000) (World.sample_ms 10200) (some (Pointee.of_int 500))
      (some (Pointee.of_int 500)) rfl (by decide) (by decide) (by decide)).2.1,
   (interaction_tap_after_boost_debounced Headers.sample State.init
      [(World.sample_ms 10000, some (Pointee.of_int 500))]
      (run (interaction_step Headers.sample) State.init
        [(World.sample_ms 10000, some (Pointee.of_int 500))]).1
      (World.sample_ms 10200) (World.sample_ms 10300) (some (Pointee.of_int 500))
      (some (Pointee.of_int 500)) rfl (by decide) (by decide) (by decide)).1,
   ((interaction_tap_after_boost_debounced Headers.sample State.init
      [(World.sample_ms 10000, some (Pointee.of_int 500))]
      (run (interaction_step Headers.sample) State.init
        [(World.sample_ms 10000, some (Pointee.of_int 500))]).1
      (World.sample_ms 10200) (World.sample_ms 10300) (some (Pointee.of_int 500))
      (some (Pointee.of_int 500)) rfl (by decide) (by decide) (by decide)).2.2
      (by decide)).2⟩

/-- C16 fails as stated: a call at 10.0 s requesting 1000 ms is followed 100 ms
later by one requesting 500 ms; the first exceeds 750 ms, yet the second issues
no request. -/
theorem interaction_tap_after_fling_debounced :
    calc_timespan_us (World.sample_ms 10000).now (World.sample_ms 10100).now = 100000
    ∧ ¬ requests_at_most (some (Pointee.of_int 1000)) 750
    ∧ (run (interaction_step Headers.sample) State.init
        [(World.sample_ms 10000, some (Pointee.of_int 1000)),
         (World.sample_ms 10100, some (Pointee.of_int 500))]).2
      = [[scroll_boost Headers.sample 1000], []] := by
  decide

/-- C16, as the code has it. Of two consecutive interaction calls less than
250 ms apart, the second issues a request, for its own clamped duration, if the
duration it requests exceeds 750 ms; what the first call requested plays no
part. -/
theorem interaction_fling_always_boosts (h : Headers) (w1 w2 : World) (s : State)
    (data1 : Option Pointee) (p2 : Pointee)
    (hclose : h.calc_timespan_us w1.now w2.now < 250000)
    (hlong : 750 < p2.as_int) :
    (process_interaction_hint h w2 (process_interaction_hint h w1 s data1).1 (some p2)).2
      = [scroll_boost h (clamp p2.as_int 400 5000)] := by
  have _ := hclose
  have hc : ¬ clamp p2.as_int 400 5000 ≤ 750 := by
    simp only [clamp]
    omega
  rw [process_interaction_hint_eq h w2 _ (some p2)]
  simp only [applied_duration]
  rw [if_neg (fun hx => hc hx.2)]

theorem interaction_fling_always_boosts_witness :
    (process_interaction_hint Headers.sample (World.sample_ms 10100)
        (process_interaction_hint Headers.sample (World.sample_ms 10000) State.init
          (some (Pointee.of_int 500))).1 (some (Pointee.of_int 1000))).2
      = [scroll_boost Headers.sample 1000] :=
  interaction_fling_always_boosts Headers.sample (World.sample_ms 10000)
    (World.sample_ms 10100) State.init (some (Pointee.of_int 500)) (Pointee.of_int 1000)
    (by decide) (by decide)

/-! ## Video-encode hint: unbalanced stops, unreadable governor -/

theorem count_starts_cons (h : Headers) (c : World × Pointee) (cs : List (World × Pointee)) :
    count_starts h (c :: cs)
      = (if parses_with_state h c.2 1 then 1 else 0) + count_starts h cs := by
  by_cases hp : parses_with_state h c.2 1 <;> simp [count_starts, List.filter_cons, hp]
  omega

theorem count_stops_cons (h : Headers) (c : World × Pointee) (cs : List (World × Pointee)) :
    count_stops h (c :: cs)
      = (if parses_with_state h c.2 0 then 1 else 0) + count_stops h cs := by
  by_cases hp : parses_with_state h c.2 0 <;> simp [count_stops, List.filter_cons, hp]
  omega

theorem parses_with_state_unique (h : Headers) (p : Pointee) (a b : Int)
    (ha : parses_with_state h p a) (hb : parses_with_state h p b) : a = b := by
  unfold parses_with_state at ha hb
  rw [ha] at hb
  exact Option.some.inj hb

theorem video_encode_run_count (h : Headers) (cs : List (World × Pointee)) (s : State)
    (hcs : ∀ c ∈ cs, counted_call h c) :
    (run (video_encode_step h) s cs).1.camera_hint_ref_count
      = s.camera_hint_ref_count + count_starts h cs - count_stops h cs := by
  induction cs generalizing s with
  | nil => simp [run, count_starts, count_stops]
  | cons c cs ih =>
    have hrest := ih (video_encode_step h s c).1 (fun x hx => hcs x (List.mem_cons_of_mem _ hx))
    obtain ⟨hi, hp | hp⟩ := hcs c (List.mem_cons_self _ _)
    · have hnot : ¬ parses_with_state h c.2 0 := fun h0 => by
        have := parses_with_state_unique h c.2 1 0 hp h0
        omega
      have hstep := (video_start_step h c s ⟨hi, hp⟩).1
      simp only [run, hrest, hstep, count_starts_cons, count_stops_cons, if_pos hp, if_neg hnot]
      push_cast
      omega
    · have hnot : ¬ parses_with_state h c.2 1 := fun h1 => by
        have := parses_with_state_unique h c.2 0 1 hp h1
        omega
      have hstep := (video_stop_step h c s ⟨hi, hp⟩).1
      simp only [run, hrest, hstep, count_starts_cons, count_stops_cons, if_pos hp, if_neg hnot]
      push_cast
      omega

/-- C17 fails as stated: a stop received in the initial state, where
`camera_hint_ref_count = 0`, is counted like any other and leaves
`camera_hint_ref_count = -1`; it issues no call. -/
theorem video_encode_extra_stop_goes_negative :
    State.init.camera_hint_ref_count = 0
    ∧ counted_call Headers.sample (World.sample 10 0, Pointee.of_str "state=0")
    ∧ (process_video_encode_hint Headers.sample (World.sample 10 0) State.init
        (some (Pointee.of_str "state=0"))).2 = []
    ∧ (process_video_encode_hint Headers.sample (World.sample 10 0) State.init
        (some (Pointee.of_str "state=0"))).1.camera_hint_ref_count = -1
    ∧ ¬ (0 ≤ (process_video_encode_hint Headers.sample (World.sample 10 0) State.init
        (some (Pointee.of_str "state=0"))).1.camera_hint_ref_count) := by
  decide

/-- C17, as the code has it. A stop (state 0, interactive governor) received
when `camera_hint_ref_count` is 0 issues no `undo_hint_action` and leaves the
counter at -1: there is no guard.  After any sequence of video-encode calls
that reach the counter, it is its former value plus the number of starts minus
the number of stops, so from 0 it is non-negative exactly when the stops do
not outnumber the starts. -/
theorem video_encode_count_unguarded (h : Headers) (s s0 : State) (c0 : World × Pointee)
    (cs : List (World × Pointee))
    (hzero : s0.camera_hint_ref_count = 0)
    (hstop : c0.1.interactive h ∧ parses_with_state h c0.2 0)
    (hcs : ∀ c ∈ cs, counted_call h c) :
    count_undo (video_encode_step h s0 c0).2 = 0
    ∧ (video_encode_step h s0 c0).1.camera_hint_ref_count = -1
    ∧ (run (video_encode_step h) s cs).1.camera_hint_ref_count
        = s.camera_hint_ref_count + count_starts h cs - count_stops h cs
    ∧ (s.camera_hint_ref_count = 0 →
        (0 ≤ (run (video_encode_step h) s cs).1.camera_hint_ref_count
          ↔ count_stops h cs ≤ count_starts h cs)) := by
  obtain ⟨e1, _, _, e4⟩ := video_stop_step h c0 s0 hstop
  have hrun := video_encode_run_count h cs s hcs
  refine ⟨?_, ?_, hrun, ?_⟩
  · rw [e4, hzero]; simp
  · rw [e1, hzero]; rfl
  · intro hs
    rw [hrun, hs]
    omega

theorem video_encode_count_unguarded_witness :
    (video_encode_step Headers.sample State.init
        (World.sample 10 0, Pointee.of_str "state=0")).1.camera_hint_ref_count = -1
    ∧ (run (video_encode_step Headers.sample) State.init
        [(World.sample 10 0, Pointee.of_str "state=1"),
         (World.sample 11 0, Pointee.of_str "state=0"),
         (World.sample 12 0, Pointee.of_str "state=0")]).1.camera_hint_ref_count
      = State.init.camera_hint_ref_count
        + count_starts Headers.sample
            [(World.sample 10 0, Pointee.of_str "state=1"),
             (World.sample 11 0, Pointee.of_str "state=0"),
             (World.sample 12 0, Pointee.of_str "state=0")]
        - count_stops Headers.sample
            [(World.sample 10 0, Pointee.of_str "state=1"),
             (World.sample 11 0, Pointee.of_str "state=0"),
             (World.sample 12 0, Pointee.of_str "state=0")] :=
  ⟨(video_encode_count_unguarded Headers.sample State.init State.init
      (World.sample 10 0, Pointee.of_str "state=0")
      [(World.sample 10 0, Pointee.of_str "state=1"),
       (World.sample 11 0, Pointee.of_str "state=0"),
       (World.sample 12 0, Pointee.of_str "state=0")]
      (by decide) (by decide) (by decide)).2.1,
   (video_encode_count_unguarded Headers.sample State.init State.init
      (World.sample 10 0, Pointee.of_str "state=0")
      [(World.sample 10 0, Pointee.of_str "state=1"),
       (World.sample 11 0, Pointee.of_str "state=0"),
       (World.sample 12 0, Pointee.of_str "state=0")]
      (by decide) (by decide) (by decide)).2.2.1⟩

/-- C18. The return code of `get_scaling_governor` has no influence on
`process_video_encode_hint`: the `return` after the failure is commented out.
With the governor unreadable and the buffer holding `interactive` from an
earlier call, a start in the initial state applies the tuning:
`perform_hint_action` is issued, `camera_hint_ref_count` becomes 1 and
`video_encode_hint_sent` becomes 1. -/
theorem video_encode_ignores_governor_failure :
    (∀ (h : Headers) (w : World) (s : State) (metadata : Option Pointee) (rc : Int),
        process_video_encode_hint h { w with governor_rc := rc } s metadata
          = process_video_encode_hint h w s metadata)
    ∧ World.sample_unreadable.governor_rc = -1
    ∧ count_perform (process_video_encode_hint Headers.sample World.sample_unreadable
        State.init (some (Pointee.of_str "state=1"))).2 = 1
    ∧ (process_video_encode_hint Headers.sample World.sample_unreadable
        State.init (some (Pointee.of_str "state=1"))).1.camera_hint_ref_count = 1
    ∧ (process_video_encode_hint Headers.sample World.sample_unreadable
        State.init (some (Pointee.of_str "state=1"))).1.video_encode_hint_sent = 1 := by
  refine ⟨fun h w s metadata rc => rfl, by decide, by decide, by decide, by decide⟩

/-! ## Hint-sent flags -/

theorem undo_owed_append (xs ys : List Event) :
    undo_owed (xs ++ ys) = ys.foldl undo_owed_after (undo_owed xs) := by
  simp [undo_owed, List.foldl_append]

theorem set_interactive_keeps_flags (h : Headers) (w : World) (on_ : Int) (t : Traced)
    (ht : t.flags_reflect_calls) :
    (Traced.step h t (TuningCall.set_interactive w on_)).flags_reflect_calls := by
  obtain ⟨hd, hv⟩ := ht
  unfold Traced.flags_reflect_calls Traced.step
  simp only [undo_owed_append]
  by_cases hrc : w.governor_rc = -1
  · simpa [set_interactive_override, hrc] using ⟨hd, hv⟩
  · by_cases hg : h.is_interactive_governor w.governor = true
    · by_cases hon : on_ = 0
      · by_cases hs : t.state.display_hint_sent = 0
        · simpa [set_interactive_override, hrc, hg, hon, hs, undo_owed_after] using hv
        · simpa [set_interactive_override, hrc, hg, hon, hs, undo_owed_after] using ⟨hd, hv⟩
      · simpa [set_interactive_override, hrc, hg, hon, undo_owed_after] using hv
    · simpa [set_interactive_override, hrc, hg] using ⟨hd, hv⟩

theorem video_encode_keeps_flags (h : Headers) (w : World) (metadata : Option Pointee)
    (t : Traced) (ht : t.flags_reflect_calls) :
    (Traced.step h t (TuningCall.video_encode w metadata)).flags_reflect_calls := by
  obtain ⟨hd, hv⟩ := ht
  unfold Traced.flags_reflect_calls Traced.step
  simp only [undo_owed_append]
  cases metadata with
  | none => simpa [process_video_encode_hint] using ⟨hd, hv⟩
  | some p =>
    cases hm : h.parse_video_encode_metadata p.as_str
        { state := -1, hint_id := h.DEFAULT_VIDEO_ENCODE_HINT_ID } with
    | none => simpa [process_video_encode_hint, hm] using ⟨hd, hv⟩
    | some m =>
      by_cases hg : h.is_interactive_governor w.governor = true
      · by_cases h1 : m.state = 1
        · by_cases hc : t.state.camera_hint_ref_count + 1 = 1
          · by_cases hs : t.state.video_encode_hint_sent = 0
            · simpa [process_video_encode_hint, hm, hg, h1, hc, hs, undo_owed_after] using hd
            · simpa [process_video_encode_hint, hm, hg, h1, hc, hs, undo_owed_after]
                using ⟨hd, hv⟩
          · simpa [process_video_encode_hint, hm, hg, h1, hc, undo_owed_after] using ⟨hd, hv⟩
        · by_cases h0 : m.state = 0
          · by_cases hc : t.state.camera_hint_ref_count - 1 = 0
            · simpa [process_video_encode_hint, hm, hg, h1, h0, hc, undo_owed_after] using hd
            · simpa [process_video_encode_hint, hm, hg, h1, h0, hc, undo_owed_after]
                using ⟨hd, hv⟩
          · simpa [process_video_encode_hint, hm, hg, h1, h0] using ⟨hd, hv⟩
      · by_cases h1 : m.state = 1
        · simpa [process_video_encode_hint, hm, hg, h1] using ⟨hd, hv⟩
        · by_cases h0 : m.state = 0
          · simpa [process_video_encode_hint, hm, hg, h1, h0] using ⟨hd, hv⟩
          · simpa [process_video_encode_hint, hm, hg, h1, h0] using ⟨hd, hv⟩

theorem traced_run_keeps_flags (h : Headers) (cs : List TuningCall) (t : Traced)
    (ht : t.flags_reflect_calls) : (Traced.run h t cs).flags_reflect_calls := by
  induction cs generalizing t with
  | nil => simpa [Traced.run] using ht
  | cons c cs ih =>
    have hstep : (Traced.step h t c).flags_reflect_calls := by
      cases c with
      | set_interactive w on_ => exact set_interactive_keeps_flags h w on_ t ht
      | video_encode w metadata => exact video_encode_keeps_flags h w metadata t ht
    simpa [Traced.run] using ih (Traced.step h t c) hstep

theorem set_interactive_perform_bound (h : Headers) (w : World) (s : State) (on_ : Int) :
    count_perform (set_interactive_override h w s on_).events
      ≤ (if s.display_hint_sent = 1 then 0 else 1) := by
  by_cases hrc : w.governor_rc = -1
  · simp [set_interactive_override, hrc, count_perform]
  · by_cases hg : h.is_interactive_governor w.governor = true
    · by_cases hon : on_ = 0
      · by_cases hs : s.display_hint_sent = 0
        · simp [set_interactive_override, hrc, hg, hon, hs, count_perform,
            Event.is_perform_hint_action]
        · simp [set_interactive_override, hrc, hg, hon, hs, count_perform,
            Event.is_perform_hint_action]
      · simp [set_interactive_override, hrc, hg, hon, count_perform,
          Event.is_perform_hint_action]
    · simp [set_interactive_override, hrc, hg, count_perform]

theorem video_encode_perform_bound (h : Headers) (w : World) (s : State)
    (metadata : Option Pointee) :
    count_perform (process_video_encode_hint h w s metadata).2
      ≤ (if s.video_encode_hint_sent = 1 then 0 else 1) := by
  cases metadata with
  | none => simp [process_video_encode_hint, count_perform]
  | some p =>
    cases hm : h.parse_video_encode_metadata p.as_str
        { state := -1, hint_id := h.DEFAULT_VIDEO_ENCODE_HINT_ID } with
    | none => simp [process_video_encode_hint, hm, count_perform]
    | some m =>
      by_cases hg : h.is_interactive_governor w.governor = true
      · by_cases h1 : m.state = 1
        · by_cases hc : s.camera_hint_ref_count + 1 = 1
          · by_cases hs : s.video_encode_hint_sent = 0
            · simp [process_video_encode_hint, hm, hg, h1, hc, hs, count_perform,
                Event.is_perform_hint_action]
            · simp [process_video_encode_hint, hm, hg, h1, hc, hs, count_perform,
                Event.is_perform_hint_action]
          · simp [process_video_encode_hint, hm, hg, h1, hc, count_perform,
              Event.is_perform_hint_action]
        · by_cases h0 : m.state = 0
          · by_cases hc : s.camera_hint_ref_count - 1 = 0
            · simp [process_video_encode_hint, hm, hg, h1, h0, hc, count_perform,
                Event.is_perform_hint_action]
            · simp [process_video_encode_hint, hm, hg, h1, h0, hc, count_perform]
          · simp [process_video_encode_hint, hm, hg, h1, h0, count_perform]
      · by_cases h1 : m.state = 1
        · simp [process_video_encode_hint, hm, hg, h1, count_perform]
        · by_cases h0 : m.state = 0
          · simp [process_video_encode_hint, hm, hg, h1, h0, count_perform]
          · simp [process_video_encode_hint, hm, hg, h1, h0, count_perform]

/-- C19. After any sequence of `set_interactive_override` and video-encode hint
calls from the initial state, with any governor results, SoC ids and metadata,
`display_hint_sent = 1` exactly when the most recent performance-service call
made by `set_interactive_override` is a `perform_hint_action`, and
`video_encode_hint_sent = 1` exactly when the most recent one made by
`process_video_encode_hint` is; and a further call of either handler issues no
`perform_hint_action` while its flag is 1, at most one otherwise. -/
theorem hint_sent_flags_reflect_undo_owed (h : Headers) (cs : List TuningCall)
    (w : World) (on_ : Int) (metadata : Option Pointee) :
    ((Traced.run h Traced.init cs).state.display_hint_sent = 1
        ↔ undo_owed (Traced.run h Traced.init cs).display_calls = true)
    ∧ ((Traced.run h Traced.init cs).state.video_encode_hint_sent = 1
        ↔ undo_owed (Traced.run h Traced.init cs).video_encode_calls = true)
    ∧ count_perform (set_interactive_override h w (Traced.run h Traced.init cs).state on_).events
        ≤ (if (Traced.run h Traced.init cs).state.display_hint_sent = 1 then 0 else 1)
    ∧ count_perform
          (process_video_encode_hint h w (Traced.run h Traced.init cs).state metadata).2
        ≤ (if (Traced.run h Traced.init cs).state.video_encode_hint_sent = 1 then 0 else 1) := by
  have hinit : Traced.init.flags_reflect_calls := by
    simp [Traced.flags_reflect_calls, Traced.init, State.init, undo_owed]
  obtain ⟨hd, hv⟩ := traced_run_keeps_flags h cs Traced.init hinit
  exact ⟨hd, hv, set_interactive_perform_bound h w _ on_,
    video_encode_perform_bound h w _ metadata⟩

/-! ## Launch state invariant -/

theorem launch_step_consistent (h : Headers) (c : World × Option Pointee) (s : State)
    (hsentinel : h.CHECK_HANDLE (-1) = false) (hs : launch_consistent h s) :
    launch_consistent h (launch_step h s c).1 := by
  obtain ⟨hiff, hmode⟩ := hs
  obtain ⟨w, data⟩ := c
  unfold launch_consistent launch_step
  cases data with
  | none =>
    cases hc : h.CHECK_HANDLE s.launch_handle <;>
      simp [process_activity_launch_hint, hc, hsentinel]
  | some p =>
    rcases hmode with h0 | h1
    · cases hc : h.CHECK_HANDLE w.perf_handle <;>
        simp [process_activity_launch_hint, h0, hc]
    · have hne : ¬ s.launch_mode = 0 := by omega
      simpa [process_activity_launch_hint, hne] using ⟨hiff, h1⟩

theorem launch_run_consistent (h : Headers) (cs : List (World × Option Pointee)) (s : State)
    (hsentinel : h.CHECK_HANDLE (-1) = false) (hs : launch_consistent h s) :
    launch_consistent h (run (launch_step h) s cs).1 := by
  induction cs generalizing s with
  | nil => simpa [run] using hs
  | cons c cs ih =>
    simpa [run] using ih (launch_step h s c).1 (launch_step_consistent h c s hsentinel hs)

/-- C20. In every state reached from the initial state by any sequence of
launch-start and launch-end calls, whatever handles
`perf_hint_enable_with_type` returns, `launch_mode = 1` if and only if
`launch_handle` passes `CHECK_HANDLE` (the sentinel `-1` not being a valid
handle); hence the next launch end releases exactly the held handle, if any,
and a launch start while a handle is held issues nothing and keeps it. -/
theorem launch_state_invariant (h : Headers) (cs : List (World × Option Pointee))
    (wend wstart : World) (p : Pointee) (hsentinel : h.CHECK_HANDLE (-1) = false) :
    ((run (launch_step h) State.init cs).1.launch_mode = 1
        ↔ h.CHECK_HANDLE (run (launch_step h) State.init cs).1.launch_handle = true)
    ∧ ((run (launch_step h) State.init cs).1.launch_mode = 0
        ∨ (run (launch_step h) State.init cs).1.launch_mode = 1)
    ∧ (process_activity_launch_hint h wend (run (launch_step h) State.init cs).1 none).events
        = (if (run (launch_step h) State.init cs).1.launch_mode = 1
           then [Event.release_request (run (launch_step h) State.init cs).1.launch_handle]
           else [])
    ∧ (process_activity_launch_hint h wstart
          (run (launch_step h) State.init cs).1 (some p)).state.launch_handle
        = (if h.CHECK_HANDLE (run (launch_step h) State.init cs).1.launch_handle = true
           then (run (launch_step h) State.init cs).1.launch_handle
           else wstart.perf_handle)
    ∧ (process_activity_launch_hint h wstart
          (run (launch_step h) State.init cs).1 (some p)).events
        = (if h.CHECK_HANDLE (run (launch_step h) State.init cs).1.launch_handle = true
           then [] else [launch_acquire h]) := by
  have hinit : launch_consistent h State.init := by
    simp [launch_consistent, State.init, hsentinel]
  obtain ⟨hiff, hmode⟩ := launch_run_consistent h cs State.init hsentinel hinit
  generalize (run (launch_step h) State.init cs).1 = s at hiff hmode ⊢
  refine ⟨hiff, hmode, ?_, ?_, ?_⟩
  · by_cases hm : s.launch_mode = 1
    · simp [process_activity_launch_hint, hm, hiff.mp hm]
    · have hc : h.CHECK_HANDLE s.launch_handle = false := by
        cases hv : h.CHECK_HANDLE s.launch_handle
        · rfl
        · exact absurd (hiff.mpr hv) hm
      simp [process_activity_launch_hint, hm, hc]
  · by_cases hm : s.launch_mode = 1
    · have hne : ¬ s.launch_mode = 0 := by omega
      simp [process_activity_launch_hint, hne, hiff.mp hm]
    · have h0 : s.launch_mode = 0 := by
        rcases hmode with h0 | h1
        · exact h0
        · exact absurd h1 hm
      have hc : h.CHECK_HANDLE s.launch_handle = false := by
        cases hv : h.CHECK_HANDLE s.launch_handle
        · rfl
        · exact absurd (hiff.mpr hv) hm
      cases hw : h.CHECK_HANDLE wstart.perf_handle <;>
        simp [process_activity_launch_hint, h0, hc, hw]
  · by_cases hm : s.launch_mode = 1
    · have hne : ¬ s.launch_mode = 0 := by omega
      simp [process_activity_launch_hint, hne, hiff.mp hm]
    · have h0 : s.launch_mode = 0 := by
        rcases hmode with h0 | h1
        · exact h0
        · exact absurd h1 hm
      have hc : h.CHECK_HANDLE s.launch_handle = false := by
        cases hv : h.CHECK_HANDLE s.launch_handle
        · rfl
        · exact absurd (hiff.mpr hv) hm
      cases hw : h.CHECK_HANDLE wstart.perf_handle <;>
        simp [process_activity_launch_hint, h0, hc, hw, launch_acquire]

theorem launch_state_invariant_witness :
    (run (launch_step Headers.sample) State.init
        [(World.sample 10 (-1), some (Pointee.of_int 0)),
         (World.sample 11 7, some (Pointee.of_int 0)),
         (World.sample 12 9, some (Pointee.of_int 0))]).1.launch_mode = 1
      ↔ Headers.sample.CHECK_HANDLE
          (run (launch_step Headers.sample) State.init
            [(World.sample 10 (-1), some (Pointee.of_int 0)),
             (World.sample 11 7, some (Pointee.of_int 0)),
             (World.sample 12 9, some (Pointee.of_int 0))]).1.launch_handle = true :=
  (launch_state_invariant Headers.sample
    [(World.sample 10 (-1), some (Pointee.of_int 0)),
     (World.sample 11 7, some (Pointee.of_int 0)),
     (World.sample 12 9, some (Pointee.of_int 0))]
    (World.sample 13 0) (World.sample 14 3) (Pointee.of_int 0) (by decide)).1

end Power660
